import Mathlib

/-!
Verification of the persistence and reconciliation layer of the river-run
application (`riverrun.py`) against its specification.

The embedding models the SQLite-backed store as explicit Lean state:

* a `DB` value holds the three tables (`rivers`, `trip_logs`,
  `river_documents`) as lists of rows together with the `AUTOINCREMENT`
  counters;
* row timestamps (`CURRENT_TIMESTAMP`) are modelled by a `now : Nat`
  parameter threaded through the mutating operations;
* Python dicts used as CRUD payloads are modelled by records whose fields
  are `Option`-valued: `none` is an absent key, and `d.get(key, default)`
  becomes `Option.getD`;
* `REAL` columns (latitude, longitude, length_miles, duration_hours) are
  modelled as `Option Int`; no property proved here depends on their
  values, only on their presence and equality;
* Python `str.lower`/`str.strip` are modelled character-wise (`pyLower`,
  `pyStrip`), since the claims only ever apply them to ordinary text.

A central point of fidelity: the application opens every sqlite3
connection without executing `PRAGMA foreign_keys = ON`, and sqlite3
leaves foreign-key enforcement OFF by default.  Consequently the
`ON DELETE CASCADE` clauses declared in `init_database` never fire, and
`delete_river` removes only the `rivers` row.  The embedding reproduces
that actual behaviour.
-/

/-- Python `str.lower()`, character by character (the fields it is applied
to are ordinary names and locations). -/
def pyLower (s : String) : String := String.mk (s.data.map Char.toLower)

/-- Python `str.strip()`: drop leading and trailing whitespace. -/
def pyStrip (s : String) : String :=
  String.mk (((s.data.dropWhile Char.isWhitespace).reverse.dropWhile
    Char.isWhitespace).reverse)

/-- The normalisation `x.lower().strip()` used for river names and
locations throughout the import code. -/
def pyNorm (s : String) : String := pyStrip (pyLower s)

/-- Python truthiness of an optional integer argument (`if river_id:`):
`None` and `0` are falsy. -/
def pyTruthyNat : Option Nat → Bool
  | none => false
  | some n => n != 0

/-- A row of the `rivers` table (schema of `init_database`).  `TEXT`
columns declared without `NOT NULL` still receive `''` defaults from the
insert code, so they are plain `String`s here; nullable numeric columns
are `Option`s. -/
structure River where
  id : Nat
  name : String
  location : String
  region : String
  latitude : Option Int
  longitude : Option Int
  difficulty_class : String
  length_miles : Option Int
  typical_flow_min : Option Int
  typical_flow_max : Option Int
  put_in_location : String
  take_out_location : String
  shuttle_info : String
  parking_details : String
  best_seasons : String
  water_level_source : String
  hazards : String
  portages : String
  emergency_contacts : String
  description : String
  personal_rating : Option Int
  date_added : Nat
  last_updated : Nat
  notes : String
  tags : String
deriving Repr, DecidableEq

/-- A row of the `trip_logs` table.  `river_id` has no `NOT NULL`
constraint, hence `Option Nat`; `trip_date` is `NOT NULL`. -/
structure TripLog where
  id : Nat
  river_id : Option Nat
  trip_date : String
  companions : String
  water_level : String
  weather_conditions : String
  flow_rate : Option Int
  duration_hours : Option Int
  difficulty_experienced : String
  highlights : String
  challenges : String
  gear_used : String
  trip_rating : Option Int
  notes : String
  created_date : Nat
deriving Repr, DecidableEq

/-- A row of the `river_documents` table (attachment metadata). -/
structure RiverDocument where
  id : Nat
  river_id : Option Nat
  file_name : String
  file_path : String
  file_type : String
  file_size : Nat
  description : String
  upload_date : Nat
deriving Repr, DecidableEq

/-- The relational store: the three tables plus the `AUTOINCREMENT`
counters (`AUTOINCREMENT` never reuses ids, so each counter only grows). -/
structure DB where
  rivers : List River := []
  trip_logs : List TripLog := []
  river_documents : List RiverDocument := []
  next_river_id : Nat := 1
  next_trip_id : Nat := 1
  next_document_id : Nat := 1
deriving Repr, DecidableEq

/-- A fresh store, as produced by `init_database` on a new file. -/
def emptyDB : DB := {}

/-- A river CRUD payload: a Python dict whose keys may be absent.
`id`, `date_added`, `last_updated` can occur in imported records (they are
stripped by the importer, and ignored by `add_river` in any case). -/
structure RiverDict where
  id : Option Nat := none
  name : Option String := none
  location : Option String := none
  region : Option String := none
  latitude : Option Int := none
  longitude : Option Int := none
  difficulty_class : Option String := none
  length_miles : Option Int := none
  typical_flow_min : Option Int := none
  typical_flow_max : Option Int := none
  put_in_location : Option String := none
  take_out_location : Option String := none
  shuttle_info : Option String := none
  parking_details : Option String := none
  best_seasons : Option String := none
  water_level_source : Option String := none
  hazards : Option String := none
  portages : Option String := none
  emergency_contacts : Option String := none
  description : Option String := none
  personal_rating : Option Int := none
  notes : Option String := none
  tags : Option String := none
  date_added : Option Nat := none
  last_updated : Option Nat := none
deriving Repr, DecidableEq

/-- A trip-log CRUD payload.  `river_name` and `created_date` occur
in imported records and are stripped before insertion. -/
structure TripDict where
  id : Option Nat := none
  river_id : Option Nat := none
  river_name : Option String := none
  trip_date : Option String := none
  companions : Option String := none
  water_level : Option String := none
  weather_conditions : Option String := none
  flow_rate : Option Int := none
  duration_hours : Option Int := none
  difficulty_experienced : Option String := none
  highlights : Option String := none
  challenges : Option String := none
  gear_used : Option String := none
  trip_rating : Option Int := none
  notes : Option String := none
  created_date : Option Nat := none
deriving Repr, DecidableEq

/-- A row of `SELECT t.*, r.name as river_name FROM trip_logs t JOIN
rivers r ON t.river_id = r.id`. -/
structure TripRow where
  trip : TripLog
  river_name : String
deriving Repr, DecidableEq

/-- Lexicographic comparison of character lists (SQLite's BINARY
collation used by `ORDER BY`). -/
def listLeB : List Char → List Char → Bool
  | [], _ => true
  | _ :: _, [] => false
  | a :: as, b :: bs =>
    if a < b then true else if b < a then false else listLeB as bs

/-- String comparison for `ORDER BY` clauses. -/
def strLeB (a b : String) : Bool := listLeB a.data b.data

/-- Insert into a sorted list (auxiliary to `insertionSort`). -/
def insertSorted {α : Type} (le : α → α → Bool) (x : α) : List α → List α
  | [] => [x]
  | y :: ys => if le x y then x :: y :: ys else y :: insertSorted le x ys

/-- The sort applied by SQL `ORDER BY` (a stable sort; which stable sort
is irrelevant, only the comparator matters). -/
def insertionSort {α : Type} (le : α → α → Bool) : List α → List α
  | [] => []
  | x :: xs => insertSorted le x (insertionSort le xs)

namespace DatabaseManager

/-- `add_river`: `INSERT INTO rivers (...)` with every value read via
`river_data.get(key, default)`; text columns default to `''`, numeric
columns to `NULL`.  `id` is assigned by `AUTOINCREMENT` and both
timestamps by `CURRENT_TIMESTAMP` (the `now` argument).  Keys `id`,
`date_added`, `last_updated` of the payload are not in the column list
and are therefore ignored.  Returns the updated store and
`cursor.lastrowid`.  The inserted row is factored out as `riverRow`. -/
def riverRow (rid : Nat) (d : RiverDict) (now : Nat) : River :=
  { id := rid
    name := d.name.getD ""
    location := d.location.getD ""
    region := d.region.getD ""
    latitude := d.latitude
    longitude := d.longitude
    difficulty_class := d.difficulty_class.getD ""
    length_miles := d.length_miles
    typical_flow_min := d.typical_flow_min
    typical_flow_max := d.typical_flow_max
    put_in_location := d.put_in_location.getD ""
    take_out_location := d.take_out_location.getD ""
    shuttle_info := d.shuttle_info.getD ""
    parking_details := d.parking_details.getD ""
    best_seasons := d.best_seasons.getD ""
    water_level_source := d.water_level_source.getD ""
    hazards := d.hazards.getD ""
    portages := d.portages.getD ""
    emergency_contacts := d.emergency_contacts.getD ""
    description := d.description.getD ""
    personal_rating := d.personal_rating
    date_added := now
    last_updated := now
    notes := d.notes.getD ""
    tags := d.tags.getD "" }

def add_river (db : DB) (d : RiverDict) (now : Nat) : DB × Nat :=
  let r : River := riverRow db.next_river_id d now
  ({ db with rivers := db.rivers ++ [r], next_river_id := db.next_river_id + 1 },
    db.next_river_id)

/-- `get_all_rivers`: `SELECT * FROM rivers ORDER BY name` (stable sort on
the raw `name` column). -/
def get_all_rivers (db : DB) : List River :=
  insertionSort (fun a b => strLeB a.name b.name) db.rivers

/-- `get_river_by_id`: `SELECT * FROM rivers WHERE id = ?`, first row or
`None`. -/
def get_river_by_id (db : DB) (river_id : Nat) : Option River :=
  db.rivers.find? (fun r => r.id == river_id)

/-- `update_river`: `UPDATE rivers SET ... last_updated=CURRENT_TIMESTAMP
WHERE id=?`.  Every listed column is overwritten from the payload (same
defaults as `add_river`); `id` and `date_added` are not in the SET list
and keep their values; rows with other ids are untouched. -/
def update_river (db : DB) (river_id : Nat) (d : RiverDict) (now : Nat) : DB :=
  { db with rivers := db.rivers.map (fun r =>
      if r.id = river_id then
        { id := r.id
          name := d.name.getD ""
          location := d.location.getD ""
          region := d.region.getD ""
          latitude := d.latitude
          longitude := d.longitude
          difficulty_class := d.difficulty_class.getD ""
          length_miles := d.length_miles
          typical_flow_min := d.typical_flow_min
          typical_flow_max := d.typical_flow_max
          put_in_location := d.put_in_location.getD ""
          take_out_location := d.take_out_location.getD ""
          shuttle_info := d.shuttle_info.getD ""
          parking_details := d.parking_details.getD ""
          best_seasons := d.best_seasons.getD ""
          water_level_source := d.water_level_source.getD ""
          hazards := d.hazards.getD ""
          portages := d.portages.getD ""
          emergency_contacts := d.emergency_contacts.getD ""
          description := d.description.getD ""
          personal_rating := d.personal_rating
          date_added := r.date_added
          last_updated := now
          notes := d.notes.getD ""
          tags := d.tags.getD "" }
      else r) }

/-- `delete_river`: executes exactly `DELETE FROM rivers WHERE id = ?`.
No connection in the application ever runs `PRAGMA foreign_keys = ON`,
and sqlite3 keeps foreign-key enforcement off by default, so the
`ON DELETE CASCADE` clauses declared on `trip_logs` and
`river_documents` do not fire: dependent rows survive. -/
def delete_river (db : DB) (river_id : Nat) : DB :=
  { db with rivers := db.rivers.filter (fun r => r.id != river_id) }

/-- `add_document`: `INSERT INTO river_documents ...`.  The Python code
derives `file_name`, `file_type` and `file_size` from the source file on
disk (`os.path.basename` / `splitext` / `getsize`); those host-filesystem
reads are taken here as arguments. -/
def add_document (db : DB) (river_id : Nat) (file_name file_path file_type : String)
    (file_size : Nat) (description : String) (now : Nat) : DB :=
  let doc : RiverDocument :=
    { id := db.next_document_id
      river_id := some river_id
      file_name := file_name
      file_path := file_path
      file_type := file_type
      file_size := file_size
      description := description
      upload_date := now }
  { db with
      river_documents := db.river_documents ++ [doc]
      next_document_id := db.next_document_id + 1 }

/-- `get_river_documents`: `SELECT * FROM river_documents WHERE
river_id = ?`. -/
def get_river_documents (db : DB) (river_id : Nat) : List RiverDocument :=
  db.river_documents.filter (fun doc => doc.river_id == some river_id)

/-- `add_trip_log`: `INSERT INTO trip_logs (...)`.  The `trip_date`
column is `NOT NULL`: when the payload has no `trip_date` key,
`trip_data.get('trip_date')` yields `None` and the insert raises
`IntegrityError` — modelled as `none`.  All other values bind without
constraint.  On success returns the store and `cursor.lastrowid`.  The
inserted row is factored out as `tripLogRow`. -/
def tripLogRow (tid : Nat) (d : TripDict) (date : String) (now : Nat) : TripLog :=
  { id := tid
    river_id := d.river_id
    trip_date := date
    companions := d.companions.getD ""
    water_level := d.water_level.getD ""
    weather_conditions := d.weather_conditions.getD ""
    flow_rate := d.flow_rate
    duration_hours := d.duration_hours
    difficulty_experienced := d.difficulty_experienced.getD ""
    highlights := d.highlights.getD ""
    challenges := d.challenges.getD ""
    gear_used := d.gear_used.getD ""
    trip_rating := d.trip_rating
    notes := d.notes.getD ""
    created_date := now }

def add_trip_log (db : DB) (d : TripDict) (now : Nat) : Option (DB × Nat) :=
  match d.trip_date with
  | none => none
  | some date =>
    let t : TripLog := tripLogRow db.next_trip_id d date now
    some ({ db with
        trip_logs := db.trip_logs ++ [t]
        next_trip_id := db.next_trip_id + 1 }, db.next_trip_id)

/-- The inner join `trip_logs t JOIN rivers r ON t.river_id = r.id`,
one output row per trip that matches a river (`id` is the primary key of
`rivers`, so at most one river matches). -/
def joinedTrips (db : DB) : List TripRow :=
  db.trip_logs.filterMap (fun t =>
    (db.rivers.find? (fun r => t.river_id == some r.id)).map
      (fun r => { trip := t, river_name := r.name }))

/-- `get_trip_logs(river_id=None)`: the join above, optionally filtered
by `WHERE t.river_id = ?` (the Python guard is `if river_id:`, so `None`
and `0` both mean unfiltered), ordered by `trip_date DESC`. -/
def get_trip_logs (db : DB) (river_id : Option Nat) : List TripRow :=
  let rows :=
    if pyTruthyNat river_id then
      (joinedTrips db).filter (fun x => x.trip.river_id == river_id)
    else joinedTrips db
  insertionSort (fun a b => strLeB b.trip.trip_date a.trip.trip_date) rows

/-- `get_trip_log_by_id`: the same join with `WHERE t.id = ?`, first row
or `None`. -/
def get_trip_log_by_id (db : DB) (trip_id : Nat) : Option TripRow :=
  (joinedTrips db).find? (fun x => x.trip.id == trip_id)

end DatabaseManager

namespace MainWindow

/-- The duplicate-detection identity of a stored river:
`f"{river['name'].lower().strip()}|{river['location'].lower().strip()}"`. -/
def riverIdent (r : River) : String :=
  pyNorm r.name ++ "|" ++ pyNorm r.location

/-- The same identity computed for an incoming record
(`river_data.get('name', '').lower().strip()` etc.). -/
def riverDictIdent (d : RiverDict) : String :=
  pyNorm (d.name.getD "") ++ "|" ++ pyNorm (d.location.getD "")

/-- Removal of the store-assigned keys `id`, `date_added`, `last_updated`
from an incoming river record before insertion. -/
def stripAssigned (d : RiverDict) : RiverDict :=
  { d with id := none, date_added := none, last_updated := none }

/-- The body of the `for river_data in rivers_data` loop of
`import_rivers`, with the dedup set threaded as a list (membership is all
that is used of the Python `set`).  The `try/except` around `add_river`
turns any per-record database failure into a skip without registering the
record's identity; the loop is therefore stated over an arbitrary
`persist` outcome, of which `add_riverOk` below (the typed `add_river`,
which cannot raise because `get('name', '')` and `get('location', '')`
always bind strings) is the concrete instance used by `import_data`. -/
def import_rivers_go (persist : DB → RiverDict → Nat → Option (DB × Nat)) (now : Nat) :
    DB → List RiverDict → List String → Nat → Nat → DB × Nat × Nat
  | db, [], _, imported_count, skipped_count => (db, imported_count, skipped_count)
  | db, d :: rest, seen, imported_count, skipped_count =>
    let identifier := riverDictIdent d
    if seen.contains identifier then import_rivers_go persist now db rest seen imported_count (skipped_count + 1)
    else
      match persist db (stripAssigned d) now with
      | some (db', _) => import_rivers_go persist now db' rest (identifier :: seen)
          (imported_count + 1) skipped_count
      | none => import_rivers_go persist now db rest seen imported_count (skipped_count + 1)

/-- The always-succeeding persist step used by the river importer: the
guarded call `self.db_manager.add_river(import_river)`. -/
def add_riverOk (db : DB) (d : RiverDict) (now : Nat) : Option (DB × Nat) :=
  some (DatabaseManager.add_river db d now)

/-- `import_rivers`: builds the existing-identity set from
`get_all_rivers()` and runs the loop.  Returns
`(store, imported_count, skipped_count)`. -/
def import_rivers (db : DB) (now : Nat) (rivers_data : List RiverDict) :
    DB × Nat × Nat :=
  let existing_identifiers := (DatabaseManager.get_all_rivers db).map riverIdent
  (import_rivers_go add_riverOk now db rivers_data existing_identifiers 0 0)

/-- The name→id resolution dict
`{river['name'].lower().strip(): river['id'] for river in current_rivers}`:
a later entry overwrites an earlier one, so lookup finds the last
occurrence of a key. -/
def name_to_id_entries (rivers : List River) : List (String × Nat) :=
  rivers.map (fun r => (pyNorm r.name, r.id))

/-- Lookup in the dict above (last binding of the key wins, as for a
Python dict comprehension). -/
def dictLookup (entries : List (String × Nat)) (k : String) : Option Nat :=
  (entries.reverse.find? (fun e => e.1 == k)).map (fun e => e.2)

/-- The duplicate-detection identity of a trip:
`f"{river_id}|{trip_date}"` (the date is used raw, not normalised). -/
def tripIdent (river_id : Nat) (trip_date : String) : String :=
  toString river_id ++ "|" ++ trip_date

/-- The body of the `for trip_data in trips_data` loop of `import_trips`:
resolve the denormalised river name against the dict, skip when
unresolved; compute the `river_id|trip_date` identity, skip when already
seen; otherwise set `river_id`, strip `id`/`river_name`/`created_date`
and attempt `add_trip_log`, whose failure (caught by the `try/except`) is
a skip that does not register the identity. -/
def import_trips_go (now : Nat) (entries : List (String × Nat)) :
    DB → List TripDict → List String → Nat → Nat → DB × Nat × Nat
  | db, [], _, imported_count, skipped_count => (db, imported_count, skipped_count)
  | db, t :: rest, seen, imported_count, skipped_count =>
    match dictLookup entries (pyNorm (t.river_name.getD "")) with
    | none => import_trips_go now entries db rest seen imported_count (skipped_count + 1)
    | some new_river_id =>
      let identifier := tripIdent new_river_id (t.trip_date.getD "")
      if seen.contains identifier then import_trips_go now entries db rest seen imported_count (skipped_count + 1)
      else
        let import_trip : TripDict :=
          { t with
              river_id := some new_river_id
              id := none
              river_name := none
              created_date := none }
        match DatabaseManager.add_trip_log db import_trip now with
        | some (db', _) => import_trips_go now entries db' rest (identifier :: seen)
            (imported_count + 1) skipped_count
        | none => import_trips_go now entries db rest seen imported_count (skipped_count + 1)

/-- `import_trips`: builds the name→id dict from the current river table
and the existing-trip identity set from `get_trip_logs()` (the join, so
orphaned trips contribute no identity), then runs the loop. -/
def import_trips (db : DB) (now : Nat) (trips_data : List TripDict) :
    DB × Nat × Nat :=
  let entries := name_to_id_entries (DatabaseManager.get_all_rivers db)
  let existing_trip_identifiers :=
    (DatabaseManager.get_trip_logs db none).map
      (fun x => tripIdent (x.trip.river_id.getD 0) x.trip.trip_date)
  (import_trips_go now entries db trips_data existing_trip_identifiers 0 0)

/-- The payload of `export_data`: all rivers (full rows), the export
instant, the echoed flag, and — only when the flag is set — all joined
trip rows. -/
structure ExportDoc where
  rivers : List River
  export_date : Nat
  includes_trip_logs : Bool
  trips : Option (List TripRow)
deriving Repr, DecidableEq

/-- `export_data` (the part that builds the JSON object; file dialog and
file writing are I/O outside the model). -/
def export_data (db : DB) (now : Nat) (include_trip_logs : Bool) : ExportDoc :=
  { rivers := DatabaseManager.get_all_rivers db
    export_date := now
    includes_trip_logs := include_trip_logs
    trips :=
      if include_trip_logs then some (DatabaseManager.get_trip_logs db none)
      else none }

/-- Result of the guarded add-river UI flow (`MainWindow.add_river`):
either the validation warning (store untouched — the code returns before
calling the store) or the successful insertion. -/
inductive AddRiverResult where
  | validationError (db : DB)
  | added (db : DB) (river_id : Nat)
deriving Repr, DecidableEq

/-- `MainWindow.add_river`: the dialog's `get_river_data` always returns
every key with stripped string values, so `river_data['name']` is
`d.name.getD ""` here; the guard `if not river_data['name'] or not
river_data['location']` rejects empty strings before any store call. -/
def add_river_flow (db : DB) (d : RiverDict) (now : Nat) : AddRiverResult :=
  if (d.name.getD "").isEmpty || (d.location.getD "").isEmpty then
    .validationError db
  else
    let (db', rid) := DatabaseManager.add_river db d now
    .added db' rid

/-- Result of the guarded edit-river UI flow (`MainWindow.edit_river`). -/
inductive EditRiverResult where
  | validationError (db : DB)
  | updated (db : DB)
deriving Repr, DecidableEq

/-- `MainWindow.edit_river` after a river has been selected: the same
empty-name/location guard precedes the `update_river` call. -/
def edit_river_flow (db : DB) (river_id : Nat) (d : RiverDict) (now : Nat) :
    EditRiverResult :=
  if (d.name.getD "").isEmpty || (d.location.getD "").isEmpty then
    .validationError db
  else
    .updated (DatabaseManager.update_river db river_id d now)

end MainWindow

/-- A parsed JSON value, for the document-level behaviour of
`import_data` (`json.load` output). -/
inductive JValue where
  | null
  | bool (b : Bool)
  | num (n : Int)
  | str (s : String)
  | arr (elems : List JValue)
  | obj (entries : List (String × JValue))

namespace MainWindow

/-- Key lookup in a parsed JSON object (after `json.load`, keys are
unique, so the first match is the only one). -/
def jLookup (entries : List (String × JValue)) (k : String) : Option JValue :=
  (entries.find? (fun e => e.1 == k)).map (fun e => e.2)

/-- Python truthiness of a JSON value (`if ... and trips_data:`). -/
def jTruthy : JValue → Bool
  | .null => false
  | .bool b => b
  | .num n => n != 0
  | .str s => !s.data.isEmpty
  | .arr xs => !xs.isEmpty
  | .obj es => !es.isEmpty

/-- Python `len` of a JSON value; raises `TypeError` on values without a
length. -/
def jLen : JValue → Except Unit Nat
  | .arr xs => .ok xs.length
  | .str s => .ok s.data.length
  | .obj es => .ok es.length
  | _ => .error ()

/-- Read an optional text column from a record: an absent key is `none`
(the dict `.get` default applies); a present string binds; any other
value makes the record's processing raise (either `AttributeError` on
`.lower()` for `name`/`location`, or an sqlite bind/constraint error
inside `add_river`) — conservatively the error path. -/
def jStrField (entries : List (String × JValue)) (k : String) :
    Except Unit (Option String) :=
  match jLookup entries k with
  | none => .ok none
  | some (.str s) => .ok (some s)
  | some _ => .error ()

/-- Read an optional numeric column: absent or JSON `null` is `NULL`,
a number binds, anything else is the error path. -/
def jIntField (entries : List (String × JValue)) (k : String) :
    Except Unit (Option Int) :=
  match jLookup entries k with
  | none => .ok none
  | some .null => .ok none
  | some (.num n) => .ok (some n)
  | some _ => .error ()

/-- Read a store-assigned key (`id`, timestamps): its value is stripped
before insertion, so only its presence matters. -/
def jNatField (entries : List (String × JValue)) (k : String) :
    Except Unit (Option Nat) :=
  match jLookup entries k with
  | none => .ok none
  | some .null => .ok none
  | some (.num n) => .ok (some n.toNat)
  | some _ => .error ()

/-- Decode one element of the `rivers` array into a typed payload.  A
non-object element raises `AttributeError` at `river_data.get` — the
error path aborting the whole import. -/
def decodeRiverRecord : JValue → Except Unit RiverDict
  | .obj es => do
    let name ← jStrField es "name"
    let location ← jStrField es "location"
    let region ← jStrField es "region"
    let latitude ← jIntField es "latitude"
    let longitude ← jIntField es "longitude"
    let difficulty_class ← jStrField es "difficulty_class"
    let length_miles ← jIntField es "length_miles"
    let typical_flow_min ← jIntField es "typical_flow_min"
    let typical_flow_max ← jIntField es "typical_flow_max"
    let put_in_location ← jStrField es "put_in_location"
    let take_out_location ← jStrField es "take_out_location"
    let shuttle_info ← jStrField es "shuttle_info"
    let parking_details ← jStrField es "parking_details"
    let best_seasons ← jStrField es "best_seasons"
    let water_level_source ← jStrField es "water_level_source"
    let hazards ← jStrField es "hazards"
    let portages ← jStrField es "portages"
    let emergency_contacts ← jStrField es "emergency_contacts"
    let description ← jStrField es "description"
    let personal_rating ← jIntField es "personal_rating"
    let notes ← jStrField es "notes"
    let tags ← jStrField es "tags"
    let id ← jNatField es "id"
    let date_added ← jNatField es "date_added"
    let last_updated ← jNatField es "last_updated"
    .ok { id, name, location, region, latitude, longitude, difficulty_class,
          length_miles, typical_flow_min, typical_flow_max, put_in_location,
          take_out_location, shuttle_info, parking_details, best_seasons,
          water_level_source, hazards, portages, emergency_contacts,
          description, personal_rating, notes, tags, date_added, last_updated }
  | _ => .error ()

/-- Iterate the `rivers` value.  An array yields its elements; iterating
a non-empty string or dict yields characters/keys on which `.get` raises
at the first element (before any store mutation); empty ones yield
nothing; other values raise `TypeError: not iterable` at loop entry.
Decoding up front is outcome-faithful: the import ends in the generic
error dialog exactly when some element's processing raises. -/
def decodeRivers : JValue → Except Unit (List RiverDict)
  | .arr xs => xs.mapM decodeRiverRecord
  | .str s => if s.data.isEmpty then .ok [] else .error ()
  | .obj es => if es.isEmpty then .ok [] else .error ()
  | _ => .error ()

/-- Decode one element of the `trips` array; a non-object element raises
at `trip_data.get`.  A numeric `trip_date` is stringified (it reaches
both the identity f-string and the insert; only the former is observable
to the claims). -/
def decodeTripRecord : JValue → Except Unit TripDict
  | .obj es => do
    let river_name ← jStrField es "river_name"
    let trip_date ←
      match jLookup es "trip_date" with
      | none => .ok (none : Option String)
      | some .null => .ok none
      | some (.str s) => .ok (some s)
      | some (.num n) => .ok (some (toString n))
      | some _ => .error ()
    let companions ← jStrField es "companions"
    let water_level ← jStrField es "water_level"
    let weather_conditions ← jStrField es "weather_conditions"
    let flow_rate ← jIntField es "flow_rate"
    let duration_hours ← jIntField es "duration_hours"
    let difficulty_experienced ← jStrField es "difficulty_experienced"
    let highlights ← jStrField es "highlights"
    let challenges ← jStrField es "challenges"
    let gear_used ← jStrField es "gear_used"
    let trip_rating ← jIntField es "trip_rating"
    let notes ← jStrField es "notes"
    let id ← jNatField es "id"
    let river_id ← jNatField es "river_id"
    let created_date ← jNatField es "created_date"
    .ok { id, river_id, river_name, trip_date, companions, water_level,
          weather_conditions, flow_rate, duration_hours,
          difficulty_experienced, highlights, challenges, gear_used,
          trip_rating, notes, created_date }
  | _ => .error ()

/-- Iterate the `trips` value, with the same conventions as
`decodeRivers`. -/
def decodeTrips : JValue → Except Unit (List TripDict)
  | .arr xs => xs.mapM decodeTripRecord
  | .str s => if s.data.isEmpty then .ok [] else .error ()
  | .obj es => if es.isEmpty then .ok [] else .error ()
  | _ => .error ()

/-- The observable outcome of `import_data`:

* `invalidFormat` — one of the two "Invalid File" dialogs (a
  `JSONDecodeError`, or the explicit structure check); the code returns
  before touching the store, which is carried unchanged;
* `importError` — the generic `except Exception` dialog ("Failed to import data"); the store may by then have absorbed part of the batch,
  so no store state is asserted on this path;
* `done` — the summary dialog with the four counters. -/
inductive ImportOutcome where
  | invalidFormat (db : DB)
  | importError
  | done (db : DB) (rivers_imported rivers_skipped trips_imported trips_skipped : Nat)

/-- `import_data`: `doc = none` models an unparseable file
(`json.JSONDecodeError`); then the structure check `isinstance(dict) and
'rivers' in import_data`; then `rivers_data = .get('rivers', [])` and
`trips_data = .get('trips', [])` feed the two importers, trips only when
the setting is enabled and `trips_data` is truthy, with the
disabled-setting branch counting `len(trips_data)` as skipped. -/
def import_data (db : DB) (now : Nat) (include_trip_logs : Bool)
    (doc : Option JValue) : ImportOutcome :=
  match doc with
  | none => .invalidFormat db
  | some j =>
    match j with
    | .obj entries =>
      match jLookup entries "rivers" with
      | none => .invalidFormat db
      | some rivers_val =>
        let trips_val := (jLookup entries "trips").getD (.arr [])
        match decodeRivers rivers_val with
        | .error _ => .importError
        | .ok rivers_data =>
          let res := import_rivers db now rivers_data
          if include_trip_logs && jTruthy trips_val then
            match decodeTrips trips_val with
            | .error _ => .importError
            | .ok trips_data =>
              let res2 := import_trips res.1 now trips_data
              .done res2.1 res.2.1 res.2.2 res2.2.1 res2.2.2
          else if !include_trip_logs && jTruthy trips_val then
            match jLen trips_val with
            | .error _ => .importError
            | .ok n => .done res.1 res.2.1 res.2.2 0 n
          else
            .done res.1 res.2.1 res.2.2 0 0
    | _ => .invalidFormat db

end MainWindow

namespace MainWindow

/-- The structure check of `import_data`:
`isinstance(import_data, dict) and 'rivers' in import_data`. -/
def hasRiversKey : JValue → Bool
  | .obj es => (jLookup es "rivers").isSome
  | _ => false

/-- Whether an outcome is one of the two "Invalid File" dialogs (the
Invalid-Format condition of the specification). -/
def ImportOutcome.isInvalidFormat : ImportOutcome → Bool
  | .invalidFormat _ => true
  | _ => false

/-- A full river row as it appears in the export document and is read
back by the importer (`json.dump` of the row followed by `json.load`):
every column key is present. -/
def riverToDict (r : River) : RiverDict :=
  { id := some r.id
    name := some r.name
    location := some r.location
    region := some r.region
    latitude := r.latitude
    longitude := r.longitude
    difficulty_class := some r.difficulty_class
    length_miles := r.length_miles
    typical_flow_min := r.typical_flow_min
    typical_flow_max := r.typical_flow_max
    put_in_location := some r.put_in_location
    take_out_location := some r.take_out_location
    shuttle_info := some r.shuttle_info
    parking_details := some r.parking_details
    best_seasons := some r.best_seasons
    water_level_source := some r.water_level_source
    hazards := some r.hazards
    portages := some r.portages
    emergency_contacts := some r.emergency_contacts
    description := some r.description
    personal_rating := r.personal_rating
    notes := some r.notes
    tags := some r.tags
    date_added := some r.date_added
    last_updated := some r.last_updated }

/-- A joined trip row as it appears in the export document (`t.*` plus
the denormalised `river_name`) and is read back by the importer. -/
def tripRowToDict (x : TripRow) : TripDict :=
  { id := some x.trip.id
    river_id := x.trip.river_id
    river_name := some x.river_name
    trip_date := some x.trip.trip_date
    companions := some x.trip.companions
    water_level := some x.trip.water_level
    weather_conditions := some x.trip.weather_conditions
    flow_rate := x.trip.flow_rate
    duration_hours := x.trip.duration_hours
    difficulty_experienced := some x.trip.difficulty_experienced
    highlights := some x.trip.highlights
    challenges := some x.trip.challenges
    gear_used := some x.trip.gear_used
    trip_rating := x.trip.trip_rating
    notes := some x.trip.notes
    created_date := some x.trip.created_date }

/-- The round trip of the specification: build the export payload with
trip logs included, and feed its rivers and trips lists to the
two importers against an empty destination store.  Returns the destination
store and the four counters
`(rivers_imported, rivers_skipped, trips_imported, trips_skipped)`. -/
def roundtrip (db : DB) (now : Nat) : DB × Nat × Nat × Nat × Nat :=
  let doc := export_data db now true
  let res := import_rivers emptyDB now (doc.rivers.map riverToDict)
  let res2 := import_trips res.1 now ((doc.trips.getD []).map tripRowToDict)
  (res2.1, res.2.1, res.2.2, res2.2.1, res2.2.2)

/-- The `river_id|trip_date` identity a trip record receives inside
`import_trips` once its river name has been resolved against the
name→id dict. -/
def resolvedTripIdent (entries : List (String × Nat)) (t : TripDict) : String :=
  tripIdent ((dictLookup entries (pyNorm (t.river_name.getD ""))).getD 0)
    (t.trip_date.getD "")

/-- The resolved identities the exported trips receive when imported into
the empty destination store of `roundtrip` (used to state that no two
exported trips collide). -/
def roundtripTripIdents (db : DB) (now : Nat) : List String :=
  let res := import_rivers emptyDB now
    ((DatabaseManager.get_all_rivers db).map riverToDict)
  let entries := name_to_id_entries (DatabaseManager.get_all_rivers res.1)
  ((DatabaseManager.get_trip_logs db none).map tripRowToDict).map
    (resolvedTripIdent entries)

end MainWindow

/-- A record as entered for the Ocoee river. -/
def ocoeeDict : RiverDict := { name := some "Ocoee", location := some "Tennessee" }

/-- A record as entered for the Gauley river. -/
def gauleyDict : RiverDict := { name := some "Gauley", location := some "West Virginia" }

/-- A store holding the single river Ocoee (id 1). -/
def ocoeeDB : DB := (DatabaseManager.add_river emptyDB ocoeeDict 1).1

/-- A store with one river (id 1), one trip log and one attachment row
referencing it, all created through the store's own operations.  Used to
exhibit the missing cascade on delete. -/
def cascadeDemoDB : DB :=
  let a := DatabaseManager.add_river emptyDB ocoeeDict 1
  let b := (DatabaseManager.add_trip_log a.1
    { river_id := some a.2, trip_date := some "2024-05-01" } 2).getD (a.1, 0)
  DatabaseManager.add_document b.1 a.2 "map.pdf" "/data/attachments/map.pdf"
    ".pdf" 1024 "" 3

/-- A store holding two rivers with the same normalised name|location
identity (the store-level `add_river` performs no deduplication, so this
state is reachable through the application's own operations). -/
def dupRiverDB : DB :=
  (DatabaseManager.add_river (DatabaseManager.add_river emptyDB ocoeeDict 1).1
    ocoeeDict 2).1

/-- A store with two distinct rivers and one trip log on river 1, used to
evaluate the round-trip property on a well-formed store. -/
def roundtripDemoDB : DB :=
  let a := DatabaseManager.add_river emptyDB ocoeeDict 1
  let b := DatabaseManager.add_river a.1 gauleyDict 2
  ((DatabaseManager.add_trip_log b.1
    { river_id := some 1, trip_date := some "2024-05-01" } 3).getD (b.1, 0)).1

/-- A store holding a single orphaned trip log (`river_id = 99`, no such
river).  Reachable through the store's own operations because foreign
keys are not enforced. -/
def orphanTripDB : DB :=
  ((DatabaseManager.add_trip_log emptyDB
    { river_id := some 99, trip_date := some "2024-01-01" } 1).getD
    (emptyDB, 0)).1

/-- Inserting into a list permutes consing onto it. -/
theorem insertSorted_perm {α : Type} (le : α → α → Bool) (x : α) :
    ∀ l : List α, (insertSorted le x l).Perm (x :: l)
  | [] => List.Perm.refl _
  | y :: ys => by
    unfold insertSorted
    by_cases h : le x y = true
    · rw [if_pos h]
    · rw [if_neg h]
      exact ((insertSorted_perm le x ys).cons y).trans (List.Perm.swap x y ys)

/-- The sort is a permutation of its input. -/
theorem insertionSort_perm {α : Type} (le : α → α → Bool) :
    ∀ l : List α, (insertionSort le l).Perm l
  | [] => List.Perm.refl _
  | x :: xs => by
    unfold insertionSort
    exact (insertSorted_perm le x _).trans ((insertionSort_perm le xs).cons x)

/-- Sorting preserves membership. -/
theorem mem_insertionSort {α : Type} {le : α → α → Bool} {a : α} {l : List α} :
    a ∈ insertionSort le l ↔ a ∈ l :=
  (insertionSort_perm le l).mem_iff

/-- Sorting preserves length. -/
theorem length_insertionSort {α : Type} (le : α → α → Bool) (l : List α) :
    (insertionSort le l).length = l.length :=
  (insertionSort_perm le l).length_eq

/-- C1: the claim says `delete_river(r)` removes the River row and every
TripLog and attachment-metadata row whose `river_id` is `r`.  On the
store `cascadeDemoDB` (river 1 with one trip log and one attachment,
built through the store's own operations), `delete_river 1` removes the
river row but leaves the dependent trip-log and attachment rows in
place: sqlite3 never has foreign-key enforcement switched on, so the
declared `ON DELETE CASCADE` is inert.  Post-delete counts referencing
river 1 are 1, not 0. -/
theorem c1_delete_river_leaves_dependent_rows :
    (DatabaseManager.delete_river cascadeDemoDB 1).rivers.length = 0 ∧
    ((DatabaseManager.delete_river cascadeDemoDB 1).trip_logs.filter
      (fun t => t.river_id == some 1)).length = 1 ∧
    ((DatabaseManager.delete_river cascadeDemoDB 1).river_documents.filter
      (fun doc => doc.river_id == some 1)).length = 1 := by
  decide

/-- C4: importing a single record whose normalised name|location identity
equals that of a river already in the store yields `imported_count = 0`,
`skipped_count = 1`, and the store (hence its river count) unchanged. -/
theorem c4_existing_duplicate_river_skipped (db : DB) (now : Nat) (r : River)
    (d : RiverDict) (hr : r ∈ db.rivers)
    (hid : MainWindow.riverDictIdent d = MainWindow.riverIdent r) :
    MainWindow.import_rivers db now [d] = (db, 0, 1) := by
  have hmem : MainWindow.riverDictIdent d ∈
      (DatabaseManager.get_all_rivers db).map MainWindow.riverIdent := by
    rw [hid]
    exact List.mem_map_of_mem _ (by
      unfold DatabaseManager.get_all_rivers
      exact mem_insertionSort.mpr hr)
  have hc : ((DatabaseManager.get_all_rivers db).map MainWindow.riverIdent).contains
      (MainWindow.riverDictIdent d) = true := by
    simpa using hmem
  simp only [MainWindow.import_rivers, MainWindow.import_rivers_go, hc, if_true]

/-- C4 witness: the store `ocoeeDB` already holds the Ocoee river, so
an import of `[ocoeeDict]` again reports `(0, 1)` and leaves the store
as it was. -/
theorem c4_witness :
    MainWindow.import_rivers ocoeeDB 2 [ocoeeDict] = (ocoeeDB, 0, 1) :=
  c4_existing_duplicate_river_skipped ocoeeDB 2
    (DatabaseManager.riverRow 1 ocoeeDict 1) ocoeeDict (by decide) (by decide)

/-- C5: two records in the same batch with the same normalised identity,
neither matching an existing river: the first is persisted, the second is
skipped; the result is exactly one new river row and counters `(1, 1)`. -/
theorem c5_intra_batch_duplicate_river (db : DB) (now : Nat) (d1 d2 : RiverDict)
    (hdup : MainWindow.riverDictIdent d2 = MainWindow.riverDictIdent d1)
    (hnew : ∀ r ∈ db.rivers, MainWindow.riverIdent r ≠ MainWindow.riverDictIdent d1) :
    MainWindow.import_rivers db now [d1, d2]
        = ((DatabaseManager.add_river db (MainWindow.stripAssigned d1) now).1, 1, 1) ∧
    (MainWindow.import_rivers db now [d1, d2]).1.rivers.length
        = db.rivers.length + 1 := by
  have hnotmem : MainWindow.riverDictIdent d1 ∉
      (DatabaseManager.get_all_rivers db).map MainWindow.riverIdent := by
    simp only [List.mem_map]
    rintro ⟨r, hrmem, hEq⟩
    exact hnew r (by
      unfold DatabaseManager.get_all_rivers at hrmem
      exact mem_insertionSort.mp hrmem) hEq
  have hc : (((DatabaseManager.get_all_rivers db).map MainWindow.riverIdent).contains
      (MainWindow.riverDictIdent d1)) = false := by
    simpa using hnotmem
  have hmain : MainWindow.import_rivers db now [d1, d2]
      = ((DatabaseManager.add_river db (MainWindow.stripAssigned d1) now).1, 1, 1) := by
    simp only [MainWindow.import_rivers, MainWindow.import_rivers_go, hc,
      Bool.false_eq_true, if_false, MainWindow.add_riverOk, hdup]
    simp
  refine ⟨hmain, ?_⟩
  rw [hmain]
  simp [DatabaseManager.add_river]

/-- C5 witness: importing the Ocoee record twice into an empty store
persists it once and reports one import and one skip. -/
theorem c5_witness :
    MainWindow.import_rivers emptyDB 1 [ocoeeDict, ocoeeDict]
        = ((DatabaseManager.add_river emptyDB (MainWindow.stripAssigned ocoeeDict) 1).1, 1, 1) ∧
    (MainWindow.import_rivers emptyDB 1 [ocoeeDict, ocoeeDict]).1.rivers.length
        = emptyDB.rivers.length + 1 :=
  c5_intra_batch_duplicate_river emptyDB 1 ocoeeDict ocoeeDict rfl (by decide)

/-- C8: `update_river` leaves every river's `id` and `date_added`
unchanged (they are absent from the SET list), stamps `last_updated`
with the update instant on the targeted row, and therefore never
decreases it while the clock is monotone (`r.last_updated ≤ now`). -/
theorem c8_update_river_frame (db : DB) (rid : Nat) (d : RiverDict) (now : Nat) :
    ((DatabaseManager.update_river db rid d now).rivers.map (fun r => r.id)
        = db.rivers.map (fun r => r.id)) ∧
    ((DatabaseManager.update_river db rid d now).rivers.map (fun r => r.date_added)
        = db.rivers.map (fun r => r.date_added)) ∧
    (∀ r' ∈ (DatabaseManager.update_river db rid d now).rivers,
        r'.id = rid → r'.last_updated = now) ∧
    (∀ r ∈ db.rivers, r.id = rid → r.last_updated ≤ now →
        ∀ r' ∈ (DatabaseManager.update_river db rid d now).rivers, r'.id = rid →
          r.last_updated ≤ r'.last_updated) := by
  have h3 : ∀ r' ∈ (DatabaseManager.update_river db rid d now).rivers,
      r'.id = rid → r'.last_updated = now := by
    intro r' hr' hid'
    unfold DatabaseManager.update_river at hr'
    simp only [List.mem_map] at hr'
    obtain ⟨r, hr, rfl⟩ := hr'
    by_cases h : r.id = rid
    · simp [h]
    · simp only [if_neg h] at hid' ⊢
      exact absurd hid' h
  refine ⟨?_, ?_, h3, ?_⟩
  · unfold DatabaseManager.update_river
    simp only [List.map_map]
    refine List.map_congr_left ?_
    intro r hr
    by_cases h : r.id = rid <;> simp [h]
  · unfold DatabaseManager.update_river
    simp only [List.map_map]
    refine List.map_congr_left ?_
    intro r hr
    by_cases h : r.id = rid <;> simp [h]
  · intro r hr hid hle r' hr' hid'
    rw [h3 r' hr' hid']
    exact hle

/-- C8 witness: updating river 1 of `ocoeeDB` (created at instant 1) at
instant 5 keeps its id and `date_added` and stamps `last_updated = 5` on
the updated row. -/
theorem c8_witness :
    ((DatabaseManager.update_river ocoeeDB 1 gauleyDict 5).rivers.map (fun r => r.id)
        = ocoeeDB.rivers.map (fun r => r.id)) ∧
    ((DatabaseManager.update_river ocoeeDB 1 gauleyDict 5).rivers.map (fun r => r.date_added)
        = ocoeeDB.rivers.map (fun r => r.date_added)) ∧
    ({ DatabaseManager.riverRow 1 gauleyDict 5 with date_added := 1 } : River).last_updated = 5 :=
  ⟨(c8_update_river_frame ocoeeDB 1 gauleyDict 5).1,
   (c8_update_river_frame ocoeeDB 1 gauleyDict 5).2.1,
   (c8_update_river_frame ocoeeDB 1 gauleyDict 5).2.2.1
     { DatabaseManager.riverRow 1 gauleyDict 5 with date_added := 1 }
     (by decide) (by decide)⟩

/-- Every row produced by the `trip_logs ⋈ rivers` join comes from the
trip table and carries the name of a river it references. -/
theorem mem_joinedTrips {db : DB} {x : TripRow}
    (hx : x ∈ DatabaseManager.joinedTrips db) :
    x.trip ∈ db.trip_logs ∧
      ∃ r ∈ db.rivers, x.trip.river_id = some r.id ∧ x.river_name = r.name := by
  unfold DatabaseManager.joinedTrips at hx
  rw [List.mem_filterMap] at hx
  obtain ⟨t, ht, hft⟩ := hx
  rw [Option.map_eq_some'] at hft
  obtain ⟨r, hfind, rfl⟩ := hft
  have hrmem : r ∈ db.rivers := List.mem_of_find?_eq_some hfind
  have hpred := List.find?_some hfind
  simp only [beq_iff_eq] at hpred
  exact ⟨ht, r, hrmem, hpred, rfl⟩

/-- `get_trip_logs` only reorders and filters the join. -/
theorem mem_get_trip_logs {db : DB} {q : Option Nat} {x : TripRow}
    (hx : x ∈ DatabaseManager.get_trip_logs db q) :
    x ∈ DatabaseManager.joinedTrips db := by
  unfold DatabaseManager.get_trip_logs at hx
  rw [mem_insertionSort] at hx
  split at hx
  · exact (List.mem_filter.mp hx).1
  · exact hx

/-- C9: a trip-log row `t` whose `river_id` matches no river is invisible
to the read interface: every row returned by `get_trip_logs` (with any
filter) joins an existing river and carries that river's name, none of
them is `t`, and `get_trip_log_by_id` on `t`'s id returns `None` — while
`t` itself stays in the trip table (reads do not mutate the store).  The
id-nodup hypothesis reflects the `id` primary key. -/
theorem c9_orphan_trips_unreachable (db : DB) (t : TripLog) (q : Option Nat)
    (ht : t ∈ db.trip_logs)
    (horphan : ∀ r ∈ db.rivers, t.river_id ≠ some r.id)
    (hids : (db.trip_logs.map (fun x => x.id)).Nodup) :
    (∀ x ∈ DatabaseManager.get_trip_logs db q,
        ∃ r ∈ db.rivers, x.trip.river_id = some r.id ∧ x.river_name = r.name) ∧
    (∀ x ∈ DatabaseManager.get_trip_logs db q, x.trip ≠ t) ∧
    DatabaseManager.get_trip_log_by_id db t.id = none := by
  refine ⟨?_, ?_, ?_⟩
  · intro x hx
    exact (mem_joinedTrips (mem_get_trip_logs hx)).2
  · intro x hx hEq
    obtain ⟨-, r, hr, hrid, -⟩ := mem_joinedTrips (mem_get_trip_logs hx)
    rw [hEq] at hrid
    exact horphan r hr hrid
  · unfold DatabaseManager.get_trip_log_by_id
    rw [List.find?_eq_none]
    intro x hx
    obtain ⟨hmem, r, hr, hrid, -⟩ := mem_joinedTrips hx
    simp only [beq_iff_eq, ne_eq]
    intro hEq
    have hxt : x.trip = t := List.inj_on_of_nodup_map hids hmem ht hEq
    rw [hxt] at hrid
    exact horphan r hr hrid

/-- C9 witness: in `orphanTripDB` (one trip log pointing at river 99, no
rivers at all) the orphaned row is returned by no read. -/
theorem c9_witness :
    (∀ x ∈ DatabaseManager.get_trip_logs orphanTripDB none,
        ∃ r ∈ orphanTripDB.rivers,
          x.trip.river_id = some r.id ∧ x.river_name = r.name) ∧
    (∀ x ∈ DatabaseManager.get_trip_logs orphanTripDB none,
        x.trip ≠ DatabaseManager.tripLogRow 1
          { river_id := some 99, trip_date := some "2024-01-01" } "2024-01-01" 1) ∧
    DatabaseManager.get_trip_log_by_id orphanTripDB
      (DatabaseManager.tripLogRow 1
        { river_id := some 99, trip_date := some "2024-01-01" } "2024-01-01" 1).id
      = none :=
  c9_orphan_trips_unreachable orphanTripDB
    (DatabaseManager.tripLogRow 1
      { river_id := some 99, trip_date := some "2024-01-01" } "2024-01-01" 1)
    none (by decide) (by decide) (by decide)

/-- A key absent from every entry of the name→id dict resolves to
`None`. -/
theorem dictLookup_eq_none_of_no_key {entries : List (String × Nat)} {k : String}
    (h : ∀ e ∈ entries, e.1 ≠ k) : MainWindow.dictLookup entries k = none := by
  unfold MainWindow.dictLookup
  rw [Option.map_eq_none', List.find?_eq_none]
  intro e he
  simp only [beq_iff_eq]
  exact h e (List.mem_reverse.mp he)

/-- A successful dict lookup comes from one of the entries. -/
theorem dictLookup_mem_of_eq_some {entries : List (String × Nat)} {k : String}
    {rid : Nat} (h : MainWindow.dictLookup entries k = some rid) :
    ∃ e ∈ entries, e.1 = k ∧ e.2 = rid := by
  unfold MainWindow.dictLookup at h
  rw [Option.map_eq_some'] at h
  obtain ⟨e, hfind, h2⟩ := h
  have hmem := List.mem_of_find?_eq_some hfind
  have hpred := List.find?_some hfind
  simp only [beq_iff_eq] at hpred
  exact ⟨e, List.mem_reverse.mp hmem, hpred, h2⟩

/-- Every trip row present after the import loop was either already in
the store or carries a `river_id` taken from the resolution dict. -/
theorem import_trips_go_river_ref (now : Nat) (entries : List (String × Nat)) :
    ∀ (recs : List TripDict) (db : DB) (seen : List String) (imp skp : Nat)
      (t' : TripLog),
      t' ∈ (MainWindow.import_trips_go now entries db recs seen imp skp).1.trip_logs →
      t' ∈ db.trip_logs ∨ ∃ rid, (∃ e ∈ entries, e.2 = rid) ∧ t'.river_id = some rid := by
  intro recs
  induction recs with
  | nil =>
    intro db seen imp skp t' h
    rw [MainWindow.import_trips_go] at h
    exact Or.inl h
  | cons t rest ih =>
    intro db seen imp skp t' h
    rw [MainWindow.import_trips_go] at h
    split at h
    · exact ih db seen imp (skp + 1) t' h
    · rename_i rid hl
      simp only [] at h
      by_cases hc : seen.contains (MainWindow.tripIdent rid (t.trip_date.getD "")) = true
      · rw [if_pos hc] at h
        exact ih db seen imp (skp + 1) t' h
      · rw [if_neg hc] at h
        cases hd : t.trip_date with
        | none =>
          rw [DatabaseManager.add_trip_log] at h
          simp only [hd] at h
          exact ih db seen imp (skp + 1) t' h
        | some date =>
          rw [DatabaseManager.add_trip_log] at h
          simp only [hd] at h
          rcases ih _ _ _ _ t' h with hmem | href
          · simp only [List.mem_append, List.mem_singleton] at hmem
            rcases hmem with hold | hrow
            · exact Or.inl hold
            · refine Or.inr ⟨rid, ?_, ?_⟩
              · obtain ⟨e, he, -, h2⟩ := dictLookup_mem_of_eq_some hl
                exact ⟨e, he, h2⟩
              · rw [hrow]
                rfl
          · exact Or.inr href

/-- C6: a trip record whose normalised `river_name` resolves against no
river of the destination store is skipped — `skipped_count` is
incremented and neither the store nor the dedup state changes — and,
in full generality, the trip importer never leaves a trip row whose
`river_id` does not belong to a river of the destination store (rows
already present excepted). -/
theorem c6_unmatched_trip_skipped_and_no_dangling :
    (∀ (db : DB) (now : Nat) (t : TripDict) (rest : List TripDict)
        (seen : List String) (imp skp : Nat),
        (∀ r ∈ db.rivers, pyNorm r.name ≠ pyNorm (t.river_name.getD "")) →
        MainWindow.import_trips_go now
            (MainWindow.name_to_id_entries (DatabaseManager.get_all_rivers db)) db
            (t :: rest) seen imp skp
          = MainWindow.import_trips_go now
            (MainWindow.name_to_id_entries (DatabaseManager.get_all_rivers db)) db
            rest seen imp (skp + 1)) ∧
    (∀ (db : DB) (now : Nat) (recs : List TripDict),
        ∀ t' ∈ (MainWindow.import_trips db now recs).1.trip_logs,
          t' ∈ db.trip_logs ∨ ∃ r ∈ db.rivers, t'.river_id = some r.id) := by
  constructor
  · intro db now t rest seen imp skp hu
    have hnone : MainWindow.dictLookup
        (MainWindow.name_to_id_entries (DatabaseManager.get_all_rivers db))
        (pyNorm (t.river_name.getD "")) = none := by
      apply dictLookup_eq_none_of_no_key
      intro e he
      unfold MainWindow.name_to_id_entries at he
      rw [List.mem_map] at he
      obtain ⟨r, hr, rfl⟩ := he
      exact hu r (by
        unfold DatabaseManager.get_all_rivers at hr
        exact mem_insertionSort.mp hr)
    rw [MainWindow.import_trips_go, hnone]
  · intro db now recs t' ht'
    rw [MainWindow.import_trips] at ht'
    rcases import_trips_go_river_ref now _ recs db _ 0 0 t' ht' with h | ⟨rid, ⟨e, he, h2⟩, hrid⟩
    · exact Or.inl h
    · right
      unfold MainWindow.name_to_id_entries at he
      rw [List.mem_map] at he
      obtain ⟨r, hr, rfl⟩ := he
      refine ⟨r, ?_, ?_⟩
      · unfold DatabaseManager.get_all_rivers at hr
        exact mem_insertionSort.mp hr
      · rw [hrid, ← h2]

/-- C6 witness: against `ocoeeDB` a trip for the unknown river Gauley is
skipped with the store untouched, and the one trip the importer does
create for "Ocoee" points at river 1, which exists. -/
theorem c6_witness :
    (MainWindow.import_trips_go 8
        (MainWindow.name_to_id_entries (DatabaseManager.get_all_rivers ocoeeDB)) ocoeeDB
        [{ river_name := some "Gauley", trip_date := some "2024-06-01" }] [] 0 0
      = MainWindow.import_trips_go 8
        (MainWindow.name_to_id_entries (DatabaseManager.get_all_rivers ocoeeDB)) ocoeeDB
        [] [] 0 (0 + 1)) ∧
    (DatabaseManager.tripLogRow 1
        { river_id := some 1, trip_date := some "2024-06-01" } "2024-06-01" 8
        ∈ ocoeeDB.trip_logs ∨
      ∃ r ∈ ocoeeDB.rivers,
        (DatabaseManager.tripLogRow 1
          { river_id := some 1, trip_date := some "2024-06-01" } "2024-06-01" 8).river_id
          = some r.id) :=
  ⟨c6_unmatched_trip_skipped_and_no_dangling.1 ocoeeDB 8
      { river_name := some "Gauley", trip_date := some "2024-06-01" } [] [] 0 0
      (by decide),
   c6_unmatched_trip_skipped_and_no_dangling.2 ocoeeDB 8
      [{ river_name := some "Ocoee", trip_date := some "2024-06-01" }]
      (DatabaseManager.tripLogRow 1
        { river_id := some 1, trip_date := some "2024-06-01" } "2024-06-01" 8)
      (by decide)⟩


/-- C7 counterexample: the claim's validation does not exist at the
store level.  `DatabaseManager.add_river` called with an empty payload
(no `name`, no `location` key) raises no Validation-Failure: it mutates
the store, persisting a river whose `name` and `location` are both the
empty string — contradicting both the invariant and the
fail-before-mutation clause at the cited symbols. -/
theorem c7_counterexample :
    (DatabaseManager.add_river emptyDB {} 0).1.rivers.length = 1 ∧
    ∀ r ∈ (DatabaseManager.add_river emptyDB {} 0).1.rivers,
      r.name = "" ∧ r.location = "" := by
  decide


/-- C7 amended: the empty-name/location guard lives in the UI flows
(`MainWindow.add_river` / `edit_river`), not in the store.  Those flows
reject an empty (post-strip) name or location before any store call, and
any river they do persist or update has non-empty name and location; the
store-level `add_river`/`update_river` themselves validate nothing. -/
theorem c7_amended (db : DB) (d : RiverDict) (rid now : Nat) :
    (((d.name.getD "").isEmpty || (d.location.getD "").isEmpty) = true →
        MainWindow.add_river_flow db d now = .validationError db ∧
        MainWindow.edit_river_flow db rid d now = .validationError db) ∧
    (∀ db' i, MainWindow.add_river_flow db d now = .added db' i →
        db'.rivers.length = db.rivers.length + 1 ∧
        ∀ r ∈ db'.rivers, r ∈ db.rivers ∨ (r.name ≠ "" ∧ r.location ≠ "")) ∧
    (∀ db', MainWindow.edit_river_flow db rid d now = .updated db' →
        ∀ r ∈ db'.rivers, r ∈ db.rivers ∨ (r.name ≠ "" ∧ r.location ≠ "")) := by
  refine ⟨?_, ?_, ?_⟩
  · intro h
    constructor
    · rw [MainWindow.add_river_flow, if_pos h]
    · rw [MainWindow.edit_river_flow, if_pos h]
  · intro db' i hadd
    rw [MainWindow.add_river_flow] at hadd
    by_cases h : ((d.name.getD "").isEmpty || (d.location.getD "").isEmpty) = true
    · rw [if_pos h] at hadd
      exact absurd hadd (by simp)
    · rw [if_neg h] at hadd
      simp only [Bool.or_eq_true, not_or, Bool.not_eq_true] at h
      obtain ⟨hn, hl⟩ := h
      injection hadd with hdb hi
      subst hdb
      constructor
      · simp [DatabaseManager.add_river]
      · intro r hr
        simp only [DatabaseManager.add_river, List.mem_append,
          List.mem_singleton] at hr
        rcases hr with hold | hnew
        · exact Or.inl hold
        · refine Or.inr ⟨?_, ?_⟩
          · rw [hnew]
            intro hcontra
            have hx : d.name.getD "" = "" := hcontra
            rw [hx] at hn
            exact absurd hn (by decide)
          · rw [hnew]
            intro hcontra
            have hx : d.location.getD "" = "" := hcontra
            rw [hx] at hl
            exact absurd hl (by decide)
  · intro db' hupd
    rw [MainWindow.edit_river_flow] at hupd
    by_cases h : ((d.name.getD "").isEmpty || (d.location.getD "").isEmpty) = true
    · rw [if_pos h] at hupd
      exact absurd hupd (by simp)
    · rw [if_neg h] at hupd
      simp only [Bool.or_eq_true, not_or, Bool.not_eq_true] at h
      obtain ⟨hn, hl⟩ := h
      injection hupd with hdb
      subst hdb
      intro r hr
      simp only [DatabaseManager.update_river, List.mem_map] at hr
      obtain ⟨r0, hr0, rfl⟩ := hr
      by_cases hid : r0.id = rid
      · rw [if_pos hid]
        refine Or.inr ⟨?_, ?_⟩
        · intro hcontra
          have hx : d.name.getD "" = "" := hcontra
          rw [hx] at hn
          exact absurd hn (by decide)
        · intro hcontra
          have hx : d.location.getD "" = "" := hcontra
          rw [hx] at hl
          exact absurd hl (by decide)
      · rw [if_neg hid]
        exact Or.inl hr0

/-- C7 witness: a payload missing `location` is rejected by both UI
flows with the store unchanged. -/
theorem c7_witness :
    MainWindow.add_river_flow ocoeeDB { name := some "Gauley" } 5
        = .validationError ocoeeDB ∧
    MainWindow.edit_river_flow ocoeeDB 1 { name := some "Gauley" } 5
        = .validationError ocoeeDB :=
  (c7_amended ocoeeDB { name := some "Gauley" } 1 5).1 (by decide)

/-- Once the structure check has passed (the document is an object with a
`rivers` key) no later step of `import_data` raises the Invalid-Format
condition: failures beyond that point surface as the generic import
error or succeed. -/
theorem import_data_not_invalid {db : DB} {now : Nat} {inc : Bool}
    {es : List (String × JValue)} {rv : JValue}
    (hr : MainWindow.jLookup es "rivers" = some rv) :
    (MainWindow.import_data db now inc (some (.obj es))).isInvalidFormat = false := by
  rw [MainWindow.import_data]
  simp only [hr]
  cases hdec : MainWindow.decodeRivers rv with
  | error e => rfl
  | ok recs =>
    simp only []
    by_cases h1 : (inc && MainWindow.jTruthy
        ((MainWindow.jLookup es "trips").getD (.arr []))) = true
    · rw [if_pos h1]
      cases hdt : MainWindow.decodeTrips
          ((MainWindow.jLookup es "trips").getD (.arr [])) with
      | error e => rfl
      | ok ts => rfl
    · rw [if_neg h1]
      by_cases h2 : (!inc && MainWindow.jTruthy
          ((MainWindow.jLookup es "trips").getD (.arr []))) = true
      · rw [if_pos h2]
        cases hlen : MainWindow.jLen
            ((MainWindow.jLookup es "trips").getD (.arr [])) with
        | error e => rfl
        | ok n => rfl
      · rw [if_neg h2]
        rfl

/-- C3 counterexample: a parseable object whose `rivers` value is
present but not a sequence (here the number 5) does not produce the
Invalid-Format condition the claim requires: the structure check only
tests key presence, the loop then raises `TypeError`, and the outcome is
the generic import-error dialog. -/
theorem c3_counterexample :
    MainWindow.jLookup [("rivers", JValue.num 5)] "rivers" = some (JValue.num 5) ∧
    MainWindow.import_data emptyDB 0 true (some (JValue.obj [("rivers", JValue.num 5)]))
      = MainWindow.ImportOutcome.importError :=
  ⟨rfl, rfl⟩

/-- C3 amended: `import_data` raises Invalid-Format exactly when the
document is unparseable or is not an object carrying a `rivers` key (a
non-sequence `rivers` value instead leads to the generic error path, or
to an empty import for empty string/object values); Invalid-Format is
raised before any store access, so the store is returned unchanged; and
a document without a `trips` key behaves exactly as the same document
with `trips` set to the empty list. -/
theorem c3_amended (db : DB) (now : Nat) (inc : Bool) (doc : Option JValue) :
    ((MainWindow.import_data db now inc doc).isInvalidFormat = true ↔
        (doc = none ∨ ∃ j, doc = some j ∧ MainWindow.hasRiversKey j = false)) ∧
    (∀ db0, MainWindow.import_data db now inc doc
        = MainWindow.ImportOutcome.invalidFormat db0 → db0 = db) ∧
    (∀ es, doc = some (.obj es) → MainWindow.jLookup es "trips" = none →
        MainWindow.import_data db now inc doc
          = MainWindow.import_data db now inc
              (some (.obj (es ++ [("trips", .arr [])])))) := by
  refine ⟨?_, ?_, ?_⟩
  · cases doc with
    | none =>
      simp [MainWindow.import_data, MainWindow.ImportOutcome.isInvalidFormat]
    | some j =>
      cases j with
      | obj es =>
        cases hr : MainWindow.jLookup es "rivers" with
        | none =>
          simp [MainWindow.import_data, hr,
            MainWindow.ImportOutcome.isInvalidFormat, MainWindow.hasRiversKey]
        | some rv =>
          rw [import_data_not_invalid hr]
          simp [MainWindow.hasRiversKey, hr]
      | null =>
        simp [MainWindow.import_data,
          MainWindow.ImportOutcome.isInvalidFormat, MainWindow.hasRiversKey]
      | bool b =>
        simp [MainWindow.import_data,
          MainWindow.ImportOutcome.isInvalidFormat, MainWindow.hasRiversKey]
      | num n =>
        simp [MainWindow.import_data,
          MainWindow.ImportOutcome.isInvalidFormat, MainWindow.hasRiversKey]
      | str s =>
        simp [MainWindow.import_data,
          MainWindow.ImportOutcome.isInvalidFormat, MainWindow.hasRiversKey]
      | arr xs =>
        simp [MainWindow.import_data,
          MainWindow.ImportOutcome.isInvalidFormat, MainWindow.hasRiversKey]
  · intro db0 hEq
    cases doc with
    | none =>
      rw [MainWindow.import_data] at hEq
      injection hEq with h
      exact h.symm
    | some j =>
      cases j with
      | obj es =>
        cases hr : MainWindow.jLookup es "rivers" with
        | none =>
          rw [MainWindow.import_data] at hEq
          simp only [hr] at hEq
          injection hEq with h
          exact h.symm
        | some rv =>
          have hfalse := @import_data_not_invalid db now inc _ _ hr
          rw [hEq] at hfalse
          exact absurd hfalse (by simp [MainWindow.ImportOutcome.isInvalidFormat])
      | null =>
        simp only [MainWindow.import_data] at hEq
        injection hEq with h
        exact h.symm
      | bool b =>
        simp only [MainWindow.import_data] at hEq
        injection hEq with h
        exact h.symm
      | num n =>
        simp only [MainWindow.import_data] at hEq
        injection hEq with h
        exact h.symm
      | str s =>
        simp only [MainWindow.import_data] at hEq
        injection hEq with h
        exact h.symm
      | arr xs =>
        simp only [MainWindow.import_data] at hEq
        injection hEq with h
        exact h.symm
  · intro es0 hdoc htr
    subst hdoc
    have h1 : MainWindow.jLookup (es0 ++ [("trips", JValue.arr [])]) "rivers"
        = MainWindow.jLookup es0 "rivers" := by
      unfold MainWindow.jLookup
      rw [List.find?_append]
      have : List.find? (fun e => e.1 == "rivers") [("trips", JValue.arr [])]
          = none := rfl
      rw [this]
      cases List.find? (fun e => e.1 == "rivers") es0 <;> rfl
    have h2 : MainWindow.jLookup (es0 ++ [("trips", JValue.arr [])]) "trips"
        = some (JValue.arr []) := by
      unfold MainWindow.jLookup at htr ⊢
      rw [Option.map_eq_none'] at htr
      rw [List.find?_append, htr]
      rfl
    rw [MainWindow.import_data, MainWindow.import_data, h1, h2, htr]
    rfl


/-- C3 witness: an unparseable file is Invalid-Format, and a document
with a `rivers` list but no `trips` key imports exactly like the same
document with an empty `trips` list. -/
theorem c3_witness :
    (MainWindow.import_data emptyDB 0 true none).isInvalidFormat = true ∧
    MainWindow.import_data emptyDB 0 true (some (.obj [("rivers", JValue.arr [])]))
      = MainWindow.import_data emptyDB 0 true
          (some (.obj ([("rivers", JValue.arr [])] ++ [("trips", JValue.arr [])]))) :=
  ⟨(c3_amended emptyDB 0 true none).1.mpr (Or.inl rfl),
   (c3_amended emptyDB 0 true (some (.obj [("rivers", JValue.arr [])]))).2.2
     [("rivers", JValue.arr [])] rfl rfl⟩

/-- C10: a record whose persist attempt fails is counted as skipped but
its identity is NOT added to the dedup set, so a later record of the same
batch with the same identity is attempted again instead of being skipped
as a duplicate.  For rivers this is stated for an arbitrary outcome of
the guarded `add_river` call (the `try/except` catches any per-record
database error); for trips the failure is concrete: a record without a
`trip_date` key violates the `NOT NULL` constraint, after which a second
record with the same resolved identity (`trip_date` present but empty)
is attempted and persisted. -/
theorem c10_failed_persist_not_registered :
    (∀ (persist : DB → RiverDict → Nat → Option (DB × Nat)) (now : Nat) (db : DB)
        (d1 d2 : RiverDict) (seen : List String) (imp skp : Nat),
        persist db (MainWindow.stripAssigned d1) now = none →
        MainWindow.riverDictIdent d2 = MainWindow.riverDictIdent d1 →
        seen.contains (MainWindow.riverDictIdent d1) = false →
        MainWindow.import_rivers_go persist now db [d1, d2] seen imp skp
          = (match persist db (MainWindow.stripAssigned d2) now with
             | some p => (p.1, imp + 1, skp + 1)
             | none => (db, imp, skp + 1 + 1))) ∧
    (∀ (now : Nat) (entries : List (String × Nat)) (db : DB) (t1 t2 : TripDict)
        (seen : List String) (imp skp rid : Nat),
        MainWindow.dictLookup entries (pyNorm (t1.river_name.getD "")) = some rid →
        MainWindow.dictLookup entries (pyNorm (t2.river_name.getD "")) = some rid →
        t1.trip_date = none →
        t2.trip_date = some "" →
        seen.contains (MainWindow.tripIdent rid "") = false →
        (MainWindow.import_trips_go now entries db [t1, t2] seen imp skp).2.1 = imp + 1 ∧
        (MainWindow.import_trips_go now entries db [t1, t2] seen imp skp).2.2 = skp + 1 ∧
        (MainWindow.import_trips_go now entries db [t1, t2] seen imp skp).1.trip_logs.length
          = db.trip_logs.length + 1) := by
  constructor
  · intro persist now db d1 d2 seen imp skp hfail hdup hc
    simp only [MainWindow.import_rivers_go, hdup, hc, Bool.false_eq_true,
      if_false, hfail]
    cases hp : persist db (MainWindow.stripAssigned d2) now with
    | none => simp only [MainWindow.import_rivers_go]
    | some p =>
      cases p with
      | mk db2 rid2 => simp only [MainWindow.import_rivers_go]
  · intro now entries db t1 t2 seen imp skp rid h1 h2 hd1 hd2 hc
    have hgo : MainWindow.import_trips_go now entries db [t1, t2] seen imp skp
        = MainWindow.import_trips_go now entries db [t2] seen imp (skp + 1) := by
      rw [MainWindow.import_trips_go]
      simp only [h1, hd1, Option.getD_none, hc, Bool.false_eq_true, if_false,
        DatabaseManager.add_trip_log]
    rw [hgo, MainWindow.import_trips_go]
    simp only [h2, hd2, Option.getD_some, hc, Bool.false_eq_true, if_false,
      DatabaseManager.add_trip_log]
    simp only [MainWindow.import_trips_go]
    refine ⟨by trivial, by trivial, ?_⟩
    simp

/-- C10 witness: with a persist step that always fails, importing the
same river record twice attempts (and fails) both times — two skips, no
dedup — and in the trip importer a dateless record's failure (one skip)
does not stop the equal-identity record that follows from being
persisted (one import). -/
theorem c10_witness :
    MainWindow.import_rivers_go (fun _ _ _ => none) 0 emptyDB
        [ocoeeDict, ocoeeDict] [] 0 0 = (emptyDB, 0, 2) ∧
    (MainWindow.import_trips_go 0 [("gauley", 7)] emptyDB
        [{ river_name := some "Gauley" },
         { river_name := some "Gauley", trip_date := some "" }] [] 0 0).2.1 = 0 + 1 ∧
    (MainWindow.import_trips_go 0 [("gauley", 7)] emptyDB
        [{ river_name := some "Gauley" },
         { river_name := some "Gauley", trip_date := some "" }] [] 0 0).1.trip_logs.length
      = emptyDB.trip_logs.length + 1 :=
  ⟨c10_failed_persist_not_registered.1 (fun _ _ _ => none) 0 emptyDB
      ocoeeDict ocoeeDict [] 0 0 rfl rfl rfl,
   (c10_failed_persist_not_registered.2 0 [("gauley", 7)] emptyDB
      { river_name := some "Gauley" }
      { river_name := some "Gauley", trip_date := some "" } [] 0 0 7
      (by decide) (by decide) rfl rfl rfl).1,
   (c10_failed_persist_not_registered.2 0 [("gauley", 7)] emptyDB
      { river_name := some "Gauley" }
      { river_name := some "Gauley", trip_date := some "" } [] 0 0 7
      (by decide) (by decide) rfl rfl rfl).2.2⟩

/-- The river import loop on a batch of records that are pairwise
distinct and all fresh relative to the dedup set: every record is
persisted (names preserved, trips untouched) and the counters report
`(imported + |batch|, skipped)`. -/
theorem import_rivers_go_all_new (now : Nat) :
    ∀ (ds : List RiverDict) (db : DB) (seen : List String) (imp skp : Nat),
      (∀ d ∈ ds, seen.contains (MainWindow.riverDictIdent d) = false) →
      ((ds.map MainWindow.riverDictIdent).Nodup) →
      (MainWindow.import_rivers_go MainWindow.add_riverOk now db ds seen imp skp).1.rivers.length
          = db.rivers.length + ds.length ∧
      (MainWindow.import_rivers_go MainWindow.add_riverOk now db ds seen imp skp).1.rivers.map
          (fun r => r.name)
          = db.rivers.map (fun r => r.name) ++ ds.map (fun d => d.name.getD "") ∧
      (MainWindow.import_rivers_go MainWindow.add_riverOk now db ds seen imp skp).1.trip_logs
          = db.trip_logs ∧
      (MainWindow.import_rivers_go MainWindow.add_riverOk now db ds seen imp skp).2
          = (imp + ds.length, skp) := by
  intro ds
  induction ds with
  | nil =>
    intro db seen imp skp hseen hnodup
    simp [MainWindow.import_rivers_go]
  | cons d ds ih =>
    intro db seen imp skp hseen hnodup
    have hc : seen.contains (MainWindow.riverDictIdent d) = false :=
      hseen d (List.mem_cons_self d ds)
    rw [List.map_cons, List.nodup_cons] at hnodup
    have hseen' : ∀ d' ∈ ds,
        (MainWindow.riverDictIdent d :: seen).contains
          (MainWindow.riverDictIdent d') = false := by
      intro d' hd'
      have hne : MainWindow.riverDictIdent d' ≠ MainWindow.riverDictIdent d := by
        intro hEq
        exact hnodup.1 (hEq ▸ List.mem_map_of_mem _ hd')
      have hns : MainWindow.riverDictIdent d' ∉ seen := by
        simpa using hseen d' (List.mem_cons_of_mem d hd')
      simp [hne, hns]
    have hloop : MainWindow.import_rivers_go MainWindow.add_riverOk now db
        (d :: ds) seen imp skp
        = MainWindow.import_rivers_go MainWindow.add_riverOk now
          (DatabaseManager.add_river db (MainWindow.stripAssigned d) now).1 ds
          (MainWindow.riverDictIdent d :: seen) (imp + 1) skp := by
      rw [MainWindow.import_rivers_go]
      simp only [hc, Bool.false_eq_true, if_false, MainWindow.add_riverOk]
    rw [hloop]
    obtain ⟨ih1, ih2, ih3, ih4⟩ := ih
      (DatabaseManager.add_river db (MainWindow.stripAssigned d) now).1
      (MainWindow.riverDictIdent d :: seen) (imp + 1) skp hseen' hnodup.2
    refine ⟨?_, ?_, ?_, ?_⟩
    · rw [ih1]
      simp only [DatabaseManager.add_river, List.length_append, List.length_cons,
        List.length_nil]
      omega
    · rw [ih2]
      simp only [DatabaseManager.add_river, List.map_append, List.map_cons,
        List.map_nil, List.map_cons]
      rw [List.append_assoc]
      rfl
    · exact ih3.trans rfl
    · rw [ih4]
      simp only [List.length_cons, Prod.mk.injEq]
      exact ⟨by omega, trivial⟩

/-- The trip import loop on a batch whose records all resolve, all carry
a `trip_date`, and have pairwise-distinct fresh identities: every record
is persisted, rivers are untouched, and the counters report
`(imported + |batch|, skipped)`. -/
theorem import_trips_go_all_new (now : Nat) (entries : List (String × Nat)) :
    ∀ (ts : List TripDict) (db : DB) (seen : List String) (imp skp : Nat),
      (∀ t ∈ ts, (MainWindow.dictLookup entries
          (pyNorm (t.river_name.getD ""))).isSome = true) →
      (∀ t ∈ ts, t.trip_date.isSome = true) →
      ((ts.map (MainWindow.resolvedTripIdent entries)).Nodup) →
      (∀ t ∈ ts, seen.contains (MainWindow.resolvedTripIdent entries t) = false) →
      (MainWindow.import_trips_go now entries db ts seen imp skp).1.trip_logs.length
          = db.trip_logs.length + ts.length ∧
      (MainWindow.import_trips_go now entries db ts seen imp skp).1.rivers = db.rivers ∧
      (MainWindow.import_trips_go now entries db ts seen imp skp).2
          = (imp + ts.length, skp) := by
  intro ts
  induction ts with
  | nil =>
    intro db seen imp skp hres hdate hnodup hseen
    simp [MainWindow.import_trips_go]
  | cons t ts ih =>
    intro db seen imp skp hres hdate hnodup hseen
    obtain ⟨rid, hl⟩ := Option.isSome_iff_exists.mp
      (hres t (List.mem_cons_self t ts))
    obtain ⟨date, hd⟩ := Option.isSome_iff_exists.mp
      (hdate t (List.mem_cons_self t ts))
    have hgetD : t.trip_date.getD "" = date := by rw [hd]; rfl
    have hid : MainWindow.resolvedTripIdent entries t
        = MainWindow.tripIdent rid date := by
      rw [MainWindow.resolvedTripIdent, hl, hgetD]
      rfl
    have hc : seen.contains (MainWindow.tripIdent rid date) = false := by
      rw [← hid]
      exact hseen t (List.mem_cons_self t ts)
    rw [List.map_cons, List.nodup_cons] at hnodup
    have hseen' : ∀ t' ∈ ts,
        (MainWindow.tripIdent rid date :: seen).contains
          (MainWindow.resolvedTripIdent entries t') = false := by
      intro t' ht'
      have hne : MainWindow.resolvedTripIdent entries t'
          ≠ MainWindow.tripIdent rid date := by
        intro hEq
        exact hnodup.1 ((hid ▸ hEq) ▸ List.mem_map_of_mem _ ht')
      have hns : MainWindow.resolvedTripIdent entries t' ∉ seen := by
        simpa using hseen t' (List.mem_cons_of_mem t ht')
      simp [hne, hns]
    have hloop : MainWindow.import_trips_go now entries db (t :: ts) seen imp skp
        = MainWindow.import_trips_go now entries
            ({ db with
                trip_logs := db.trip_logs ++
                  [DatabaseManager.tripLogRow db.next_trip_id
                    { t with river_id := some rid, id := none, river_name := none, created_date := none }
                    date now]
                next_trip_id := db.next_trip_id + 1 }) ts
            (MainWindow.tripIdent rid date :: seen) (imp + 1) skp := by
      rw [MainWindow.import_trips_go]
      simp only [hl, hgetD, hc, Bool.false_eq_true, if_false,
        DatabaseManager.add_trip_log, hd, Option.getD_some]
    rw [hloop]
    obtain ⟨ih1, ih2, ih3⟩ := ih _ _ (imp + 1) skp
      (fun t' ht' => hres t' (List.mem_cons_of_mem t ht'))
      (fun t' ht' => hdate t' (List.mem_cons_of_mem t ht'))
      hnodup.2 hseen'
    refine ⟨?_, ?_, ?_⟩
    · rw [ih1]
      simp only [List.length_append, List.length_cons, List.length_nil]
      omega
    · exact ih2.trans rfl
    · rw [ih3]
      simp only [List.length_cons, Prod.mk.injEq]
      exact ⟨by omega, trivial⟩

/-- `filterMap` drops nothing when the function succeeds everywhere. -/
theorem length_filterMap_of_isSome {α β : Type} (f : α → Option β) :
    ∀ l : List α, (∀ a ∈ l, (f a).isSome = true) →
      (l.filterMap f).length = l.length := by
  intro l
  induction l with
  | nil => intro _; rfl
  | cons a l ih =>
    intro h
    obtain ⟨b, hb⟩ := Option.isSome_iff_exists.mp (h a (List.mem_cons_self a l))
    rw [List.filterMap_cons, hb, List.length_cons,
      ih (fun x hx => h x (List.mem_cons_of_mem a hx))]
    rfl

/-- A key carried by some entry of the dict resolves. -/
theorem dictLookup_isSome_of_key_mem {entries : List (String × Nat)} {k : String}
    (h : ∃ e ∈ entries, e.1 = k) :
    (MainWindow.dictLookup entries k).isSome = true := by
  unfold MainWindow.dictLookup
  rw [Option.isSome_map']
  obtain ⟨e, he, hk⟩ := h
  rcases hfind : List.find? (fun e => e.1 == k) entries.reverse with _ | e2
  · rw [List.find?_eq_none] at hfind
    exact absurd (by simp [hk]) (hfind e (List.mem_reverse.mpr he))
  · rw [hfind]
    rfl

/-- C2 amended: exporting a store with trip logs included and importing
the document into an empty store reproduces the river and trip counts
exactly, with `imported_count` equal to the originals and
`skipped_count = 0` — provided the store's rivers have pairwise-distinct
normalised name|location identities, every trip references an existing
river (orphans are silently dropped by the export join), and no two
exported trips collide on the `river_id|trip_date` identity they receive
in the destination store.  The unrestricted claim is refuted by
`c2_counterexample`. -/
theorem c2_amended (db : DB) (now : Nat)
    (hident : (db.rivers.map MainWindow.riverIdent).Nodup)
    (href : ∀ t ∈ db.trip_logs, ∃ r ∈ db.rivers, t.river_id = some r.id)
    (htrip : (MainWindow.roundtripTripIdents db now).Nodup) :
    (MainWindow.roundtrip db now).2.1 = db.rivers.length ∧
    (MainWindow.roundtrip db now).2.2.1 = 0 ∧
    (MainWindow.roundtrip db now).2.2.2.1 = db.trip_logs.length ∧
    (MainWindow.roundtrip db now).2.2.2.2 = 0 ∧
    (MainWindow.roundtrip db now).1.rivers.length = db.rivers.length ∧
    (MainWindow.roundtrip db now).1.trip_logs.length = db.trip_logs.length := by
  -- Abbreviations for the pipeline stages.
  set ds := (DatabaseManager.get_all_rivers db).map MainWindow.riverToDict with hds
  set res := MainWindow.import_rivers emptyDB now ds with hresdef
  set ts := (DatabaseManager.get_trip_logs db none).map MainWindow.tripRowToDict with hts
  set entries := MainWindow.name_to_id_entries (DatabaseManager.get_all_rivers res.1) with hentries
  set res2 := MainWindow.import_trips res.1 now ts with hres2def
  have hrt : MainWindow.roundtrip db now
      = (res2.1, res.2.1, res.2.2, res2.2.1, res2.2.2) := rfl
  -- The river phase: everything is new, nothing is skipped.
  have hnodup_ds : (ds.map MainWindow.riverDictIdent).Nodup := by
    have hEq : ds.map MainWindow.riverDictIdent
        = (DatabaseManager.get_all_rivers db).map MainWindow.riverIdent := by
      rw [hds, List.map_map]
      rfl
    rw [hEq]
    exact ((insertionSort_perm _ db.rivers).map MainWindow.riverIdent).nodup_iff.mpr hident
  obtain ⟨hR1, hR2, hR3, hR4⟩ := import_rivers_go_all_new now ds emptyDB
    ((DatabaseManager.get_all_rivers emptyDB).map MainWindow.riverIdent) 0 0
    (fun d _ => rfl) hnodup_ds
  have hres_go : res = MainWindow.import_rivers_go MainWindow.add_riverOk now emptyDB ds
      ((DatabaseManager.get_all_rivers emptyDB).map MainWindow.riverIdent) 0 0 := rfl
  rw [← hres_go] at hR1 hR2 hR3 hR4
  have hlen_ds : ds.length = db.rivers.length := by
    rw [hds, List.length_map]
    exact length_insertionSort _ _
  -- The destination store after the river phase has no trips and carries
  -- every original river name.
  have htrips_empty : DatabaseManager.get_trip_logs res.1 none = [] := by
    unfold DatabaseManager.get_trip_logs DatabaseManager.joinedTrips
    rw [hR3]
    rfl
  have hnames : res.1.rivers.map (fun r => r.name)
      = (DatabaseManager.get_all_rivers db).map (fun r => r.name) := by
    rw [hR2]
    have : ds.map (fun d => d.name.getD "")
        = (DatabaseManager.get_all_rivers db).map (fun r => r.name) := by
      rw [hds, List.map_map]
      rfl
    rw [this]
    rfl
  -- Every exported trip resolves against the destination name→id dict.
  have hres_keys : ∀ t ∈ ts, (MainWindow.dictLookup entries
      (pyNorm (t.river_name.getD ""))).isSome = true := by
    intro t ht
    rw [hts] at ht
    rw [List.mem_map] at ht
    obtain ⟨x, hx, rfl⟩ := ht
    obtain ⟨-, r, hr, -, hxname⟩ := mem_joinedTrips (mem_get_trip_logs hx)
    have h1 : r.name ∈ res.1.rivers.map (fun r => r.name) := by
      rw [hnames]
      exact List.mem_map_of_mem _ (mem_insertionSort.mpr hr)
    rw [List.mem_map] at h1
    obtain ⟨r2, hr2, hr2name⟩ := h1
    apply dictLookup_isSome_of_key_mem
    refine ⟨(pyNorm r2.name, r2.id), ?_, ?_⟩
    · rw [hentries]
      exact List.mem_map_of_mem _ (mem_insertionSort.mpr hr2)
    · show pyNorm r2.name = pyNorm x.river_name
      rw [hr2name, hxname]
  have hdateT : ∀ t ∈ ts, t.trip_date.isSome = true := by
    intro t ht
    rw [hts, List.mem_map] at ht
    obtain ⟨x, hx, rfl⟩ := ht
    rfl
  have hnodupT : (ts.map (MainWindow.resolvedTripIdent entries)).Nodup := by
    rw [MainWindow.roundtripTripIdents] at htrip
    exact htrip
  obtain ⟨hT1, hT2, hT3⟩ := import_trips_go_all_new now entries ts res.1
    (List.map (fun x => MainWindow.tripIdent (x.trip.river_id.getD 0) x.trip.trip_date)
      (DatabaseManager.get_trip_logs res.1 none)) 0 0
    hres_keys hdateT hnodupT
    (by rw [htrips_empty]; intro t ht; rfl)
  have hres2_go : res2 = MainWindow.import_trips_go now entries res.1 ts
      (List.map (fun x => MainWindow.tripIdent (x.trip.river_id.getD 0) x.trip.trip_date)
        (DatabaseManager.get_trip_logs res.1 none)) 0 0 := rfl
  rw [← hres2_go] at hT1 hT2 hT3
  -- The number of exported trips is the number of trip rows.
  have hlen_ts : ts.length = db.trip_logs.length := by
    rw [hts, List.length_map]
    unfold DatabaseManager.get_trip_logs
    rw [length_insertionSort]
    show (DatabaseManager.joinedTrips db).length = db.trip_logs.length
    unfold DatabaseManager.joinedTrips
    apply length_filterMap_of_isSome
    intro t ht
    rw [Option.isSome_map']
    rw [List.find?_isSome]
    obtain ⟨r, hr, hrid⟩ := href t ht
    exact ⟨r, hr, by simp [hrid]⟩
  -- Assemble.
  rw [hrt]
  refine ⟨?_, ?_, ?_, ?_, ?_, ?_⟩
  · show res.2.1 = db.rivers.length
    rw [hR4, ← hlen_ds]
    simp
  · show res.2.2 = 0
    rw [hR4]
  · show res2.2.1 = db.trip_logs.length
    rw [hT3, ← hlen_ts]
    simp
  · show res2.2.2 = 0
    rw [hT3]
  · show res2.1.rivers.length = db.rivers.length
    rw [hT2, hR1, ← hlen_ds]
    simp [emptyDB]
  · show res2.1.trip_logs.length = db.trip_logs.length
    rw [hT1, hR3, ← hlen_ts]
    simp [emptyDB]
/-- C2 counterexample: the claim quantifies over every store.  On
`dupRiverDB` — two rivers with the same normalised name|location, a
state reachable through the application's own `add_river` — the round
trip imports one river and skips one: `skipped_count = 1 ≠ 0` and the
destination store has 1 river, not 2. -/
theorem c2_counterexample :
    dupRiverDB.rivers.length = 2 ∧
    (MainWindow.roundtrip dupRiverDB 3).2.1 = 1 ∧
    (MainWindow.roundtrip dupRiverDB 3).2.2.1 = 1 ∧
    (MainWindow.roundtrip dupRiverDB 3).1.rivers.length = 1 := by
  decide

/-- C2 witness: on `roundtripDemoDB` (two distinct rivers, one trip) the
round trip reproduces all counts with zero skips. -/
theorem c2_witness :
    (MainWindow.roundtrip roundtripDemoDB 9).2.1 = roundtripDemoDB.rivers.length ∧
    (MainWindow.roundtrip roundtripDemoDB 9).2.2.1 = 0 ∧
    (MainWindow.roundtrip roundtripDemoDB 9).2.2.2.1 = roundtripDemoDB.trip_logs.length ∧
    (MainWindow.roundtrip roundtripDemoDB 9).2.2.2.2 = 0 ∧
    (MainWindow.roundtrip roundtripDemoDB 9).1.rivers.length = roundtripDemoDB.rivers.length ∧
    (MainWindow.roundtrip roundtripDemoDB 9).1.trip_logs.length = roundtripDemoDB.trip_logs.length :=
  c2_amended roundtripDemoDB 9 (by decide) (by decide) (by decide)
